import Mathlib

/-!
Verification of the WebViewBridge component, a shallow embedding of the file
src/webview-bridge/index.android.js.

The component is a thin shim over a native web view. Its internal logic is:
a three-valued display state driven by native lifecycle callbacks, an event
relay that forwards bridge messages to a host callback, a render switch that
chooses between the web view and a loading or error placeholder, and four
fire-and-forget commands dispatched to the native view handle.

Modelling conventions:
- keyMirror produces string-valued state names, so viewState is a String;
  this also lets us express states outside the three expected values.
- Host callbacks are modelled by Bool fields of Props recording whether the
  host registered them; an invocation is an element of a HostCall list that
  each handler returns, in invocation order.
- setState is modelled by explicit state passing; each native lifecycle
  handler maps the current component state to the new state plus the list of
  host callback invocations it performs.
- render can dereference a null error record in its ERROR branch, so it
  returns an Except value; the error case models a thrown TypeError.
- The DeviceEventEmitter subscription is modelled by a BusWorld record. The
  source class defines componentWillMount, which adds the listener, and does
  not define componentWillUnmount, so unmounting in React runs no teardown:
  the unmount function below only clears the mounted flag, exactly as the
  source behaves, and does not remove the listener.
-/

namespace WebViewBridge

/-- keyMirror maps every key of the WebViewBridgeState object to its own
name as a string. -/
def IDLE : String := "IDLE"

def LOADING : String := "LOADING"

def ERROR : String := "ERROR"

/-- The nativeEvent payload of a load-error event: domain, code and
description, exactly as delivered by the platform. -/
structure ErrorInfo where
  domain : String
  code : Int
  description : String
deriving DecidableEq, Repr

/-- The nativeEvent payload of load-start and load-finish events: the
navigation snapshot with url, title, loading, canGoBack, canGoForward. -/
structure NavigationState where
  url : String
  title : String
  loading : Bool
  canGoBack : Bool
  canGoForward : Bool
deriving DecidableEq, Repr

/-- The component state set up in the constructor: viewState (a keyMirror
string), lastErrorEvent, and the startInLoadingState field (set to true by
the constructor and never read afterwards in the source). -/
structure ComponentState where
  viewState : String
  lastErrorEvent : Option ErrorInfo
  startInLoadingState : Bool
deriving DecidableEq, Repr

/-- The host-supplied props. Callback props are modelled by a Bool that is
true when the host registered the callback; boolean option props are
Option Bool, none meaning the host omitted the prop. -/
structure Props where
  startInLoadingState : Bool
  onBridgeMessage : Bool
  onLoadStart : Bool
  onLoad : Bool
  onLoadEnd : Bool
  onError : Bool
  onNavigationStateChange : Bool
  renderLoading : Bool
  renderError : Bool
  javaScriptEnabled : Option Bool
  domStorageEnabled : Option Bool
  javaScriptEnabledAndroid : Option Bool
  domStorageEnabledAndroid : Option Bool
deriving DecidableEq, Repr

/-- A native lifecycle event together with its nativeEvent payload. Which
constructor applies is decided by which native callback the platform fires. -/
inductive NativeLifecycleEvent where
  | loadStart (nativeEvent : NavigationState)
  | loadError (nativeEvent : ErrorInfo)
  | loadFinish (nativeEvent : NavigationState)
deriving DecidableEq, Repr

/-- One invocation of a host callback, with the argument the source passes. -/
inductive HostCall where
  | onBridgeMessage (message : String)
  | onLoadStart (e : NativeLifecycleEvent)
  | onLoad (e : NativeLifecycleEvent)
  | onLoadEnd (e : NativeLifecycleEvent)
  | onError (e : NativeLifecycleEvent)
  | onNavigationStateChange (nativeEvent : NavigationState)
deriving DecidableEq, Repr

/-- The state assigned in the constructor. -/
def initialState : ComponentState :=
  { viewState := IDLE, lastErrorEvent := none, startInLoadingState := true }

/-- The setState performed by componentWillMount: move to LOADING when the
startInLoadingState prop is set. -/
def componentWillMountState (p : Props) (s : ComponentState) : ComponentState :=
  if p.startInLoadingState then { s with viewState := LOADING } else s

/-- Component state right after mount, before any lifecycle event. -/
def mountState (p : Props) : ComponentState := componentWillMountState p initialState

/-- The body argument of the DeviceEventEmitter listener. -/
structure MessageBody where
  message : String
deriving DecidableEq, Repr

/-- The listener registered in componentWillMount on the
webViewBridgeMessage event stream: reads body.message and calls the host
onBridgeMessage callback when one is registered. -/
def bridgeListener (p : Props) (body : MessageBody) : List HostCall :=
  if p.onBridgeMessage then [HostCall.onBridgeMessage body.message] else []

/-- The subscription world: whether the listener is registered on the
emitter and whether the component is currently mounted. -/
structure BusWorld where
  subscribed : Bool
  mounted : Bool
deriving DecidableEq, Repr

/-- World after mount: componentWillMount has added the listener. -/
def mountedWorld : BusWorld := { subscribed := true, mounted := true }

/-- Unmounting the component. The source class defines no
componentWillUnmount and never stores the subscription returned by
addListener, so React runs no teardown: only the mounted flag changes and
the listener stays registered on the emitter. -/
def unmount (w : BusWorld) : BusWorld := { w with mounted := false }

/-- Delivery of one event on the webViewBridgeMessage stream: every
registered listener runs, whether or not its component is still mounted. -/
def emitBridgeMessage (p : Props) (w : BusWorld) (body : MessageBody) : List HostCall :=
  if w.subscribed then bridgeListener p body else []

/-- Delivery of a sequence of stream events, in platform order. -/
def emitRun (p : Props) (w : BusWorld) : List MessageBody → List HostCall
  | [] => []
  | b :: rest => emitBridgeMessage p w b ++ emitRun p w rest

/-- The onMessage handler bound to the native onChange callback: forwards
nativeEvent.message to the host onBridgeMessage callback when both the
callback and the nativeEvent are non-null. -/
def onMessage (p : Props) (nativeEvent : Option MessageBody) : List HostCall :=
  if p.onBridgeMessage then
    match nativeEvent with
    | some body => [HostCall.onBridgeMessage body.message]
    | none => []
  else []

/-- updateNavigationState: forwards event.nativeEvent to the host
onNavigationStateChange callback when one is registered. -/
def updateNavigationState (p : Props) (nativeEvent : NavigationState) : List HostCall :=
  if p.onNavigationStateChange then [HostCall.onNavigationStateChange nativeEvent] else []

/-- onLoadingStart: calls the host onLoadStart with the event, then
updateNavigationState with the nativeEvent; the component state is not
touched. -/
def onLoadingStart (p : Props) (s : ComponentState) (nav : NavigationState) :
    ComponentState × List HostCall :=
  (s,
    (if p.onLoadStart then [HostCall.onLoadStart (NativeLifecycleEvent.loadStart nav)] else []) ++
      updateNavigationState p nav)

/-- onLoadingError: calls the host onError and onLoadEnd with the event,
then setState stores event.nativeEvent as lastErrorEvent and moves
viewState to ERROR. -/
def onLoadingError (p : Props) (s : ComponentState) (err : ErrorInfo) :
    ComponentState × List HostCall :=
  ({ s with lastErrorEvent := some err, viewState := ERROR },
    (if p.onError then [HostCall.onError (NativeLifecycleEvent.loadError err)] else []) ++
      (if p.onLoadEnd then [HostCall.onLoadEnd (NativeLifecycleEvent.loadError err)] else []))

/-- onLoadingFinish: calls the host onLoad and onLoadEnd with the event,
setState moves viewState to IDLE (lastErrorEvent is not cleared), then
updateNavigationState with the nativeEvent. -/
def onLoadingFinish (p : Props) (s : ComponentState) (nav : NavigationState) :
    ComponentState × List HostCall :=
  ({ s with viewState := IDLE },
    (if p.onLoad then [HostCall.onLoad (NativeLifecycleEvent.loadFinish nav)] else []) ++
      (if p.onLoadEnd then [HostCall.onLoadEnd (NativeLifecycleEvent.loadFinish nav)] else []) ++
      updateNavigationState p nav)

/-- Dispatch of one native lifecycle event to the handler the source binds
for it. -/
def stepLifecycle (p : Props) (s : ComponentState) :
    NativeLifecycleEvent → ComponentState × List HostCall
  | NativeLifecycleEvent.loadStart nav => onLoadingStart p s nav
  | NativeLifecycleEvent.loadError err => onLoadingError p s err
  | NativeLifecycleEvent.loadFinish nav => onLoadingFinish p s nav

/-- Processing of a sequence of native lifecycle events, collecting the
final state and the host callback invocations in order. -/
def runEvents (p : Props) (s : ComponentState) :
    List NativeLifecycleEvent → ComponentState × List HostCall
  | [] => (s, [])
  | e :: rest =>
    ((runEvents p (stepLifecycle p s e).1 rest).1,
      (stepLifecycle p s e).2 ++ (runEvents p (stepLifecycle p s e).1 rest).2)

/-- The state reached from a fresh mount by a sequence of native lifecycle
events. -/
def reachable (p : Props) (es : List NativeLifecycleEvent) : ComponentState :=
  (runEvents p (mountState p) es).1

/-- The error payload of the most recent load-error event of a sequence. -/
def lastErrorAcc (acc : Option ErrorInfo) : NativeLifecycleEvent → Option ErrorInfo
  | NativeLifecycleEvent.loadError err => some err
  | _ => acc

/-- The most recent load-error payload of a whole sequence, if any. -/
def lastErrorOf (es : List NativeLifecycleEvent) : Option ErrorInfo :=
  es.foldl lastErrorAcc none

/-- One command dispatched through UIManager.dispatchViewManagerCommand:
the command name and its argument array (null for the three payload-free
commands). -/
structure DispatchedCommand where
  command : String
  args : Option (List String)
deriving DecidableEq, Repr

/-- goForward: dispatches the goForward command with null args. The source
method does not read or write the component state and returns no value, so
the model returns the state unchanged plus the dispatched command list. -/
def goForward (s : ComponentState) : ComponentState × List DispatchedCommand :=
  (s, [{ command := "goForward", args := none }])

/-- goBack: dispatches the goBack command with null args. -/
def goBack (s : ComponentState) : ComponentState × List DispatchedCommand :=
  (s, [{ command := "goBack", args := none }])

/-- reload: dispatches the reload command with null args. -/
def reload (s : ComponentState) : ComponentState × List DispatchedCommand :=
  (s, [{ command := "reload", args := none }])

/-- sendToBridge: dispatches the sendToBridge command with the message as
its single argument. -/
def sendToBridge (s : ComponentState) (message : String) :
    ComponentState × List DispatchedCommand :=
  (s, [{ command := "sendToBridge", args := some [message] }])

/-- The three render branches for the placeholder view: null, the result of
the host renderLoading, or the result of the host renderError applied to
the stored domain, code and description. -/
inductive OtherView where
  | nullView
  | loadingView
  | errorView (domain : String) (code : Int) (description : String)
deriving DecidableEq, Repr

/-- The deprecation warning emitted for javaScriptEnabledAndroid. -/
def jsDeprecationWarning : String :=
  "javaScriptEnabledAndroid is deprecated. Use javaScriptEnabled instead"

/-- The deprecation warning emitted for domStorageEnabledAndroid. -/
def domDeprecationWarning : String :=
  "domStorageEnabledAndroid is deprecated. Use domStorageEnabled instead"

/-- The console.error message for an unexpected viewState; the source
concatenates this.state.loading, a field that does not exist, so the
message ends in undefined. -/
def invalidStateError : String :=
  "RCTWebViewBridge invalid state encountered: undefined"

/-- The claim-relevant props forwarded to the native RCTWebViewBridge view.
The JSX writes javaScriptEnabled as true and then spreads all host props
except source over it, so a host-supplied javaScriptEnabled overrides the
true default, domStorageEnabled passes through with no default, and the two
deprecated Android flags pass through as well. The local fallback variables
computed at the top of render are never referenced by the JSX. -/
structure NativeViewProps where
  javaScriptEnabled : Option Bool
  domStorageEnabled : Option Bool
  javaScriptEnabledAndroid : Option Bool
  domStorageEnabledAndroid : Option Bool
  hiddenStyle : Bool
deriving DecidableEq, Repr

/-- Everything one render produces: the placeholder view, whether the web
view style hides it (height zero), the fact that the web view element is
still created, the console.error and console.warn output of this render
call, and the props handed to the native view. -/
structure RenderOutput where
  otherView : OtherView
  webViewHidden : Bool
  webViewMounted : Bool
  consoleErrors : List String
  consoleWarnings : List String
  nativeProps : NativeViewProps
deriving DecidableEq, Repr

/-- The otherView chain at the top of render, together with the
console.error output. In the ERROR branch with a renderError prop present,
the source reads errorEvent.domain from this.state.lastErrorEvent, which
throws a TypeError when that field is null; the Except error carries that
case. -/
def renderOtherView (p : Props) (s : ComponentState) :
    Except String (OtherView × List String) :=
  if s.viewState = LOADING then
    Except.ok (if p.renderLoading then OtherView.loadingView else OtherView.nullView, [])
  else if s.viewState = ERROR then
    if p.renderError then
      match s.lastErrorEvent with
      | some e => Except.ok (OtherView.errorView e.domain e.code e.description, [])
      | none => Except.error "TypeError: null is not an object"
    else Except.ok (OtherView.nullView, [])
  else if s.viewState ≠ IDLE then
    Except.ok (OtherView.nullView, [invalidStateError])
  else Except.ok (OtherView.nullView, [])

/-- Whether the hidden style (height zero) is pushed onto the web view
styles: exactly in the LOADING and ERROR states. -/
def hiddenFor (s : ComponentState) : Bool :=
  if s.viewState = LOADING ∨ s.viewState = ERROR then true else false

/-- The deprecation warnings emitted by one render call; the source warns
unconditionally inside its truthiness checks, on every render. -/
def renderWarnings (p : Props) : List String :=
  (if p.javaScriptEnabledAndroid = some true then [jsDeprecationWarning] else []) ++
    (if p.domStorageEnabledAndroid = some true then [domDeprecationWarning] else [])

/-- The props the JSX hands to the native view, see NativeViewProps. -/
def forwardedNativeProps (p : Props) (hidden : Bool) : NativeViewProps :=
  { javaScriptEnabled := some (p.javaScriptEnabled.getD true)
    domStorageEnabled := p.domStorageEnabled
    javaScriptEnabledAndroid := p.javaScriptEnabledAndroid
    domStorageEnabledAndroid := p.domStorageEnabledAndroid
    hiddenStyle := hidden }

/-- The record assembled by a successful render call. -/
def mkRenderOutput (p : Props) (s : ComponentState) (ov : OtherView)
    (errs : List String) : RenderOutput :=
  { otherView := ov
    webViewHidden := hiddenFor s
    webViewMounted := true
    consoleErrors := errs
    consoleWarnings := renderWarnings p
    nativeProps := forwardedNativeProps p (hiddenFor s) }

/-- The render method: computes the placeholder (possibly throwing in the
broken ERROR case), the hidden style, the warnings and the native props,
and always keeps the web view element in the tree. -/
def render (p : Props) (s : ComponentState) : Except String RenderOutput :=
  match renderOtherView p s with
  | Except.error m => Except.error m
  | Except.ok x => Except.ok (mkRenderOutput p s x.1 x.2)

/-- The result of render as an Option: some output when render returns, none
when it throws. -/
def renderOk (p : Props) (s : ComponentState) : Option RenderOutput :=
  match render p s with
  | Except.ok out => some out
  | Except.error _ => none

/-- The warnings of one render call, empty when render throws. -/
def renderedWarnings (p : Props) (s : ComponentState) : List String :=
  match renderOk p s with
  | some out => out.consoleWarnings
  | none => []

/-- The warnings accumulated over n successive render calls; render keeps
no warned-already flag, so each call contributes the same list again. -/
def warningsOverRenders (p : Props) (s : ComponentState) : Nat → List String
  | 0 => []
  | n + 1 => warningsOverRenders p s n ++ renderedWarnings p s

/-- The invariant protecting the ERROR render branch: whenever viewState is
ERROR, a lastErrorEvent record is stored. -/
def StateInv (s : ComponentState) : Prop :=
  s.viewState = ERROR → s.lastErrorEvent.isSome = true

/-- Props with every callback registered, both renderers supplied, and the
start-in-loading flag set. -/
def pAll : Props :=
  { startInLoadingState := true
    onBridgeMessage := true
    onLoadStart := true
    onLoad := true
    onLoadEnd := true
    onError := true
    onNavigationStateChange := true
    renderLoading := true
    renderError := true
    javaScriptEnabled := none
    domStorageEnabled := none
    javaScriptEnabledAndroid := none
    domStorageEnabledAndroid := none }

/-- Props with nothing supplied by the host. -/
def pNone : Props :=
  { startInLoadingState := false
    onBridgeMessage := false
    onLoadStart := false
    onLoad := false
    onLoadEnd := false
    onError := false
    onNavigationStateChange := false
    renderLoading := false
    renderError := false
    javaScriptEnabled := none
    domStorageEnabled := none
    javaScriptEnabledAndroid := none
    domStorageEnabledAndroid := none }

/-- Props where the host supplies only the deprecated domStorage flag. -/
def legacyProps : Props :=
  { pNone with domStorageEnabledAndroid := some true }

/-- The error payload of the spec example. -/
def errNet : ErrorInfo := { domain := "NET", code := -6, description := "timeout" }

/-- An earlier, different error payload. -/
def errOther : ErrorInfo := { domain := "HTTP", code := 500, description := "server" }

/-- A sample navigation snapshot. -/
def nav0 : NavigationState :=
  { url := "https://example.com"
    title := "Example"
    loading := false
    canGoBack := false
    canGoForward := false }

/-- A component state whose viewState lies outside the three expected
values. -/
def sBogus : ComponentState :=
  { viewState := "BOGUS", lastErrorEvent := none, startInLoadingState := true }

/-- Two errors in a row, the spec example arriving last. -/
def esTwoErrors : List NativeLifecycleEvent :=
  [NativeLifecycleEvent.loadError errOther, NativeLifecycleEvent.loadError errNet]

/-- The output of render for pNone in the initial idle state. -/
def outIdleNone : RenderOutput :=
  { otherView := OtherView.nullView
    webViewHidden := false
    webViewMounted := true
    consoleErrors := []
    consoleWarnings := []
    nativeProps :=
      { javaScriptEnabled := some true
        domStorageEnabled := none
        javaScriptEnabledAndroid := none
        domStorageEnabledAndroid := none
        hiddenStyle := false } }

/-- The output of render for legacyProps in the initial idle state. -/
def outLegacy : RenderOutput :=
  { otherView := OtherView.nullView
    webViewHidden := false
    webViewMounted := true
    consoleErrors := []
    consoleWarnings := [domDeprecationWarning]
    nativeProps :=
      { javaScriptEnabled := some true
        domStorageEnabled := none
        javaScriptEnabledAndroid := none
        domStorageEnabledAndroid := some true
        hiddenStyle := false } }

lemma runEvents_snoc_state (p : Props) (s : ComponentState)
    (es : List NativeLifecycleEvent) (e : NativeLifecycleEvent) :
    (runEvents p s (es ++ [e])).1 = (stepLifecycle p (runEvents p s es).1 e).1 := by
  induction es generalizing s with
  | nil => simp [runEvents]
  | cons e0 rest ih => simp [runEvents, ih]

lemma runEvents_lastErrorEvent (p : Props) (s : ComponentState)
    (es : List NativeLifecycleEvent) :
    (runEvents p s es).1.lastErrorEvent = es.foldl lastErrorAcc s.lastErrorEvent := by
  induction es generalizing s with
  | nil => simp [runEvents]
  | cons e rest ih =>
    cases e <;>
      simp [runEvents, stepLifecycle, onLoadingStart, onLoadingError, onLoadingFinish,
        lastErrorAcc, ih]

lemma mountState_lastErrorEvent (p : Props) : (mountState p).lastErrorEvent = none := by
  unfold mountState componentWillMountState initialState
  by_cases hp : p.startInLoadingState = true
  · rw [if_pos hp]
  · rw [if_neg hp]

lemma stepLifecycle_inv (p : Props) (s : ComponentState) (e : NativeLifecycleEvent)
    (h : StateInv s) : StateInv (stepLifecycle p s e).1 := by
  cases e with
  | loadStart nav => exact h
  | loadError err => intro _; rfl
  | loadFinish nav =>
    intro hE
    exact absurd (show (IDLE : String) = ERROR from hE) (by decide)

lemma runEvents_inv (p : Props) (s : ComponentState) (es : List NativeLifecycleEvent)
    (h : StateInv s) : StateInv (runEvents p s es).1 := by
  induction es generalizing s with
  | nil => exact h
  | cons e rest ih =>
    simp only [runEvents]
    exact ih _ (stepLifecycle_inv p s e h)

lemma mountState_inv (p : Props) : StateInv (mountState p) := by
  intro h
  unfold mountState componentWillMountState initialState at h
  by_cases hp : p.startInLoadingState = true
  · rw [if_pos hp] at h
    exact absurd h (by decide)
  · rw [if_neg hp] at h
    exact absurd h (by decide)

lemma renderOk_eq (p : Props) (s : ComponentState) :
    renderOk p s =
      match renderOtherView p s with
      | Except.ok x => some (mkRenderOutput p s x.1 x.2)
      | Except.error _ => none := by
  unfold renderOk render
  cases renderOtherView p s <;> rfl

lemma renderOk_shape (p : Props) (s : ComponentState) (out : RenderOutput)
    (h : renderOk p s = some out) :
    out.webViewMounted = true ∧ out.consoleWarnings = renderWarnings p ∧
      out.nativeProps = forwardedNativeProps p (hiddenFor s) ∧
      out.webViewHidden = hiddenFor s := by
  rw [renderOk_eq] at h
  cases hv : renderOtherView p s with
  | error m =>
    rw [hv] at h
    exact Option.noConfusion h
  | ok x =>
    rw [hv] at h
    have hx : mkRenderOutput p s x.1 x.2 = out := Option.some.inj h
    rw [← hx]
    exact ⟨rfl, rfl, rfl, rfl⟩

lemma renderOk_loading (p : Props) (s : ComponentState) (h : s.viewState = LOADING) :
    renderOk p s =
      some
        { otherView := if p.renderLoading then OtherView.loadingView else OtherView.nullView
          webViewHidden := true
          webViewMounted := true
          consoleErrors := []
          consoleWarnings := renderWarnings p
          nativeProps := forwardedNativeProps p true } := by
  have hhf : hiddenFor s = true := by
    unfold hiddenFor
    exact if_pos (Or.inl h)
  unfold renderOk render renderOtherView mkRenderOutput
  rw [h, hhf]
  rfl

lemma renderOk_idle (p : Props) (s : ComponentState) (h : s.viewState = IDLE) :
    renderOk p s =
      some
        { otherView := OtherView.nullView
          webViewHidden := false
          webViewMounted := true
          consoleErrors := []
          consoleWarnings := renderWarnings p
          nativeProps := forwardedNativeProps p false } := by
  have hhf : hiddenFor s = false := by
    unfold hiddenFor
    rw [h]
    rfl
  unfold renderOk render renderOtherView mkRenderOutput
  rw [h, hhf]
  rfl

lemma renderOk_error (p : Props) (s : ComponentState) (e : ErrorInfo)
    (h : s.viewState = ERROR) (he : s.lastErrorEvent = some e)
    (hre : p.renderError = true) :
    renderOk p s =
      some
        { otherView := OtherView.errorView e.domain e.code e.description
          webViewHidden := true
          webViewMounted := true
          consoleErrors := []
          consoleWarnings := renderWarnings p
          nativeProps := forwardedNativeProps p true } := by
  have hhf : hiddenFor s = true := by
    unfold hiddenFor
    exact if_pos (Or.inr h)
  unfold renderOk render renderOtherView mkRenderOutput
  rw [h, he, hre, hhf]
  rfl

lemma renderOk_error_noRenderer (p : Props) (s : ComponentState)
    (h : s.viewState = ERROR) (hre : p.renderError = false) :
    renderOk p s =
      some
        { otherView := OtherView.nullView
          webViewHidden := true
          webViewMounted := true
          consoleErrors := []
          consoleWarnings := renderWarnings p
          nativeProps := forwardedNativeProps p true } := by
  have hhf : hiddenFor s = true := by
    unfold hiddenFor
    exact if_pos (Or.inr h)
  unfold renderOk render renderOtherView mkRenderOutput
  rw [h, hre, hhf]
  rfl

lemma renderOk_invalid (p : Props) (s : ComponentState)
    (h1 : s.viewState ≠ LOADING) (h2 : s.viewState ≠ ERROR) (h3 : s.viewState ≠ IDLE) :
    renderOk p s =
      some
        { otherView := OtherView.nullView
          webViewHidden := false
          webViewMounted := true
          consoleErrors := [invalidStateError]
          consoleWarnings := renderWarnings p
          nativeProps := forwardedNativeProps p false } := by
  have hor : ¬ (s.viewState = LOADING ∨ s.viewState = ERROR) := by
    rintro (h | h)
    · exact h1 h
    · exact h2 h
  have hhf : hiddenFor s = false := by
    unfold hiddenFor
    exact if_neg hor
  unfold renderOk render renderOtherView mkRenderOutput
  rw [hhf, if_neg h1, if_neg h2, if_pos h3]

lemma renderOk_isSome_of_inv (p : Props) (s : ComponentState) (hinv : StateInv s) :
    (renderOk p s).isSome = true := by
  by_cases h1 : s.viewState = LOADING
  · rw [renderOk_loading p s h1]
    rfl
  · by_cases h2 : s.viewState = ERROR
    · by_cases hre : p.renderError = true
      · cases ho : s.lastErrorEvent with
        | none =>
          have := hinv h2
          rw [ho] at this
          exact absurd this (by decide)
        | some e =>
          rw [renderOk_error p s e h2 ho hre]
          rfl
      · rw [renderOk_error_noRenderer p s h2 (Bool.eq_false_iff.mpr hre)]
        rfl
    · by_cases h3 : s.viewState = IDLE
      · rw [renderOk_idle p s h3]
        rfl
      · rw [renderOk_invalid p s h1 h2 h3]
        rfl

lemma renderedWarnings_of_ok (p : Props) (s : ComponentState) (out : RenderOutput)
    (h : renderOk p s = some out) : renderedWarnings p s = out.consoleWarnings := by
  unfold renderedWarnings
  rw [h]

/-- Claim C1, evaluated at the failing input: the source defines no
componentWillUnmount and never stores the subscription, so after mount and
unmount the listener is still registered and a webViewBridgeMessage event
with payload message ping still invokes the host onBridgeMessage callback,
contrary to the claim that no invocation occurs after unmount. -/
theorem C1_message_after_unmount :
    (unmount mountedWorld).mounted = false ∧
      (unmount mountedWorld).subscribed = true ∧
      emitBridgeMessage pAll (unmount mountedWorld) { message := "ping" } =
        [HostCall.onBridgeMessage "ping"] :=
  ⟨rfl, rfl, rfl⟩

/-- Claim C2: from any prior state and after any prior event sequence, a
final load-start leaves the display state unchanged, a final load-error
sets it to ERROR and stores the error payload, and a final load-finish sets
it to IDLE; and each single event performs exactly the host calls of the
section 4.1 table in order: load-start invokes onLoadStart then forwards
the navigation snapshot, load-error invokes onError then onLoadEnd,
load-finish invokes onLoad then onLoadEnd then forwards the navigation
snapshot. -/
theorem C2_transition_table (p : Props) (s : ComponentState)
    (es : List NativeLifecycleEvent) (nav : NavigationState) (err : ErrorInfo) :
    ((runEvents p s (es ++ [NativeLifecycleEvent.loadStart nav])).1 =
        (runEvents p s es).1) ∧
      ((runEvents p s (es ++ [NativeLifecycleEvent.loadError err])).1 =
        { (runEvents p s es).1 with viewState := ERROR, lastErrorEvent := some err }) ∧
      ((runEvents p s (es ++ [NativeLifecycleEvent.loadFinish nav])).1 =
        { (runEvents p s es).1 with viewState := IDLE }) ∧
      ((stepLifecycle p s (NativeLifecycleEvent.loadStart nav)).2 =
        (if p.onLoadStart then [HostCall.onLoadStart (NativeLifecycleEvent.loadStart nav)]
          else []) ++
          (if p.onNavigationStateChange then [HostCall.onNavigationStateChange nav]
            else [])) ∧
      ((stepLifecycle p s (NativeLifecycleEvent.loadError err)).2 =
        (if p.onError then [HostCall.onError (NativeLifecycleEvent.loadError err)]
          else []) ++
          (if p.onLoadEnd then [HostCall.onLoadEnd (NativeLifecycleEvent.loadError err)]
            else [])) ∧
      ((stepLifecycle p s (NativeLifecycleEvent.loadFinish nav)).2 =
        (if p.onLoad then [HostCall.onLoad (NativeLifecycleEvent.loadFinish nav)]
          else []) ++
          (if p.onLoadEnd then [HostCall.onLoadEnd (NativeLifecycleEvent.loadFinish nav)]
            else []) ++
          (if p.onNavigationStateChange then [HostCall.onNavigationStateChange nav]
            else [])) := by
  refine ⟨?_, ?_, ?_, rfl, rfl, rfl⟩
  · rw [runEvents_snoc_state]
    rfl
  · rw [runEvents_snoc_state]
    rfl
  · rw [runEvents_snoc_state]
    rfl

/-- Claim C4: delivering any sequence of stream events to the mounted,
subscribed component invokes the registered host onBridgeMessage callback
with the message string of each payload exactly once per event, in delivery
order with no duplication, drop, reordering or buffering; with no callback
registered every event is skipped. -/
theorem C4_relay_in_order (p : Props) (bodies : List MessageBody) :
    emitRun p mountedWorld bodies =
      if p.onBridgeMessage then
        bodies.map fun b => HostCall.onBridgeMessage b.message
      else [] := by
  induction bodies with
  | nil => cases hp : p.onBridgeMessage <;> simp [emitRun]
  | cons b rest ih =>
    cases hp : p.onBridgeMessage <;>
      simp_all [emitRun, emitBridgeMessage, bridgeListener, mountedWorld]

/-- Claim C5: from any component state, sendToBridge issues exactly one
command carrying its message as the single payload element, and goBack,
goForward and reload each issue exactly one payload-free command; none of
the four alters the component state (in particular the display state and
the stored error record are unchanged), and none returns anything besides
the dispatch itself. -/
theorem C5_commands (s : ComponentState) (message : String) :
    sendToBridge s message =
        (s, [{ command := "sendToBridge", args := some [message] }]) ∧
      (sendToBridge s message).2.length = 1 ∧
      (sendToBridge s message).1.viewState = s.viewState ∧
      (sendToBridge s message).1.lastErrorEvent = s.lastErrorEvent ∧
      goBack s = (s, [{ command := "goBack", args := none }]) ∧
      goForward s = (s, [{ command := "goForward", args := none }]) ∧
      reload s = (s, [{ command := "reload", args := none }]) :=
  ⟨rfl, rfl, rfl, rfl, rfl, rfl, rfl⟩

/-- Claim C3: right after mount and before any lifecycle event the display
state is LOADING when the start-in-loading option is set and IDLE
otherwise, no error record is stored, and render then hides the web view
exactly in the LOADING case while keeping it mounted, showing the loading
renderer exactly when the option and the renderer are both supplied and no
placeholder otherwise. -/
theorem C3_initial_state_render (p : Props) :
    ((mountState p).viewState = if p.startInLoadingState then LOADING else IDLE) ∧
      (mountState p).lastErrorEvent = none ∧
      ((renderOk p (mountState p)).map fun o =>
          (o.webViewHidden, o.webViewMounted, o.otherView)) =
        some (p.startInLoadingState, true,
          if p.startInLoadingState && p.renderLoading then OtherView.loadingView
          else OtherView.nullView) := by
  cases hs : p.startInLoadingState with
  | false =>
    have hm : mountState p = initialState := by
      unfold mountState componentWillMountState
      rw [hs]
      rfl
    rw [hm, renderOk_idle p initialState rfl]
    refine ⟨rfl, rfl, ?_⟩
    cases hr : p.renderLoading <;> rfl
  | true =>
    have hm : mountState p = { initialState with viewState := LOADING } := by
      unfold mountState componentWillMountState
      rw [hs]
      rfl
    rw [hm, renderOk_loading p { initialState with viewState := LOADING } rfl]
    refine ⟨rfl, rfl, ?_⟩
    cases hr : p.renderLoading <;> rfl

/-- Claim C6, refuted at a concrete input: with only the deprecated
domStorageEnabledAndroid flag supplied, the props handed to the native view
still carry no domStorageEnabled value (the computed fallback is never
forwarded), and two render calls emit the deprecation warning twice, not
once. -/
theorem C6_counterexample :
    ((renderOk legacyProps initialState).map fun o => o.nativeProps.domStorageEnabled) =
        some none ∧
      (warningsOverRenders legacyProps initialState 2).length = 2 := by
  constructor
  · rfl
  · rfl

/-- Claim C6 as amended: when a deprecated legacy flag is present, the
deprecation warning is emitted on every render call in which it is present
(n renders emit it n times), the legacy value is assigned only to a local
fallback variable that the produced native-view props never receive, and
the host options, including the legacy flags themselves, are passed through
to the native view untouched, with javaScriptEnabled defaulting to true
when the host omits it. -/
theorem C6_amended (p : Props) (s : ComponentState) (out : RenderOutput) (n : Nat)
    (h : renderOk p s = some out) :
    out.consoleWarnings =
        (if p.javaScriptEnabledAndroid = some true then [jsDeprecationWarning] else []) ++
          (if p.domStorageEnabledAndroid = some true then [domDeprecationWarning] else []) ∧
      out.nativeProps.javaScriptEnabled = some (p.javaScriptEnabled.getD true) ∧
      out.nativeProps.domStorageEnabled = p.domStorageEnabled ∧
      out.nativeProps.javaScriptEnabledAndroid = p.javaScriptEnabledAndroid ∧
      out.nativeProps.domStorageEnabledAndroid = p.domStorageEnabledAndroid ∧
      (warningsOverRenders p s n).length = n * out.consoleWarnings.length := by
  obtain ⟨-, hw, hnp, -⟩ := renderOk_shape p s out h
  have hr : renderedWarnings p s = out.consoleWarnings := renderedWarnings_of_ok p s out h
  refine ⟨by rw [hw]; rfl, by rw [hnp]; rfl, by rw [hnp]; rfl, by rw [hnp]; rfl,
    by rw [hnp]; rfl, ?_⟩
  induction n with
  | zero => simp [warningsOverRenders]
  | succ k ih =>
    unfold warningsOverRenders
    rw [List.length_append, ih, hr, Nat.succ_mul]

/-- Witness for the amended claim C6 at the concrete legacy props, the
initial state and two render calls. -/
theorem C6_amended_witness :
    outLegacy.consoleWarnings =
        (if legacyProps.javaScriptEnabledAndroid = some true then [jsDeprecationWarning]
          else []) ++
          (if legacyProps.domStorageEnabledAndroid = some true then [domDeprecationWarning]
            else []) ∧
      outLegacy.nativeProps.javaScriptEnabled =
        some (legacyProps.javaScriptEnabled.getD true) ∧
      outLegacy.nativeProps.domStorageEnabled = legacyProps.domStorageEnabled ∧
      outLegacy.nativeProps.javaScriptEnabledAndroid = legacyProps.javaScriptEnabledAndroid ∧
      outLegacy.nativeProps.domStorageEnabledAndroid = legacyProps.domStorageEnabledAndroid ∧
      (warningsOverRenders legacyProps initialState 2).length =
        2 * outLegacy.consoleWarnings.length :=
  C6_amended legacyProps initialState outLegacy 2 (by rfl)

/-- Claim C7: after any event sequence from a fresh mount the single stored
error record equals the payload of the most recent load-error event (a
later error overwrites an earlier one, nothing accumulates), and whenever
the display state is ERROR at render time with an error renderer supplied,
render shows the error view built from exactly the literal domain, code and
description of that most recent error payload while the web view is hidden. -/
theorem C7_last_error_render (p : Props) (es : List NativeLifecycleEvent) :
    (reachable p es).lastErrorEvent = lastErrorOf es ∧
      ∀ e : ErrorInfo, (reachable p es).viewState = ERROR → lastErrorOf es = some e →
        p.renderError = true →
        ((renderOk p (reachable p es)).map fun o => (o.otherView, o.webViewHidden)) =
          some (OtherView.errorView e.domain e.code e.description, true) := by
  have h1 : (reachable p es).lastErrorEvent = lastErrorOf es := by
    unfold reachable lastErrorOf
    rw [runEvents_lastErrorEvent, mountState_lastErrorEvent]
  refine ⟨h1, ?_⟩
  intro e hE hlast hre
  have hev : (reachable p es).lastErrorEvent = some e := by rw [h1, hlast]
  rw [renderOk_error p (reachable p es) e hE hev hre]
  rfl

/-- Witness for claim C7 at concrete inputs: two successive errors, the
spec example arriving last; the stored record and the rendered error view
both show the last error only. -/
theorem C7_witness :
    (reachable pAll esTwoErrors).lastErrorEvent = some errNet ∧
      ((renderOk pAll (reachable pAll esTwoErrors)).map fun o =>
          (o.otherView, o.webViewHidden)) =
        some (OtherView.errorView "NET" (-6) "timeout", true) := by
  refine ⟨((C7_last_error_render pAll esTwoErrors).1).trans (by rfl), ?_⟩
  have h := (C7_last_error_render pAll esTwoErrors).2 errNet (by rfl) (by rfl) rfl
  exact h

/-- Claim C8: on any bridge or lifecycle event every optional host callback
that is absent is simply skipped, so with no callbacks registered no host
invocation happens at all (the handlers are total functions, nothing is
raised into the host); and render at a display state outside the three
expected values returns normally, renders no placeholder, and reports the
defect through a console.error log instead. -/
theorem C8_degrade_no_throw (p : Props) (s : ComponentState)
    (e : NativeLifecycleEvent) (body : MessageBody) (ne : Option MessageBody) :
    ((p.onBridgeMessage = false → onMessage p ne = [] ∧ bridgeListener p body = []) ∧
      (p.onLoadStart = false → p.onLoad = false → p.onLoadEnd = false →
        p.onError = false → p.onNavigationStateChange = false →
        (stepLifecycle p s e).2 = [])) ∧
      (s.viewState ≠ LOADING → s.viewState ≠ ERROR → s.viewState ≠ IDLE →
        ((renderOk p s).map fun o => (o.consoleErrors, o.otherView)) =
          some ([invalidStateError], OtherView.nullView)) := by
  refine ⟨⟨?_, ?_⟩, ?_⟩
  · intro h1
    constructor
    · cases ne <;> simp [onMessage, h1]
    · simp [bridgeListener, h1]
  · intro h2 h3 h4 h5 h6
    cases e <;>
      simp [stepLifecycle, onLoadingStart, onLoadingError, onLoadingFinish,
        updateNavigationState, h2, h3, h4, h5, h6]
  · intro hL hE hI
    rw [renderOk_invalid p s hL hE hI]
    rfl

/-- Witness for claim C8 at concrete inputs: no callbacks registered, a
load-start event, a bridge message, and a state whose viewState is the
unexpected string BOGUS. -/
theorem C8_witness :
    ((pNone.onBridgeMessage = false →
        onMessage pNone (some { message := "ping" }) = [] ∧
          bridgeListener pNone { message := "ping" } = []) ∧
      (pNone.onLoadStart = false → pNone.onLoad = false → pNone.onLoadEnd = false →
        pNone.onError = false → pNone.onNavigationStateChange = false →
        (stepLifecycle pNone sBogus (NativeLifecycleEvent.loadStart nav0)).2 = [])) ∧
      (sBogus.viewState ≠ LOADING → sBogus.viewState ≠ ERROR → sBogus.viewState ≠ IDLE →
        ((renderOk pNone sBogus).map fun o => (o.consoleErrors, o.otherView)) =
          some ([invalidStateError], OtherView.nullView)) :=
  C8_degrade_no_throw pNone sBogus (NativeLifecycleEvent.loadStart nav0)
    { message := "ping" } (some { message := "ping" })

/-- Claim C9: from a fresh mount, every state reachable by native lifecycle
events satisfies the invariant that an ERROR display state comes with a
stored error record (the only transition into ERROR stores it in the same
update), so the ERROR render branch never dereferences a null record and
render returns normally. -/
theorem C9_error_invariant (p : Props) (es : List NativeLifecycleEvent)
    (h : (reachable p es).viewState = ERROR) :
    (reachable p es).lastErrorEvent.isSome = true ∧
      (renderOk p (reachable p es)).isSome = true := by
  have hinv : StateInv (reachable p es) :=
    runEvents_inv p (mountState p) es (mountState_inv p)
  exact ⟨hinv h, renderOk_isSome_of_inv p (reachable p es) hinv⟩

/-- Witness for claim C9 at a concrete input: a single load-error event
from a fresh mount with every prop supplied. -/
theorem C9_witness :
    (reachable pAll [NativeLifecycleEvent.loadError errNet]).lastErrorEvent.isSome = true ∧
      (renderOk pAll (reachable pAll [NativeLifecycleEvent.loadError errNet])).isSome =
        true :=
  C9_error_invariant pAll [NativeLifecycleEvent.loadError errNet] (by rfl)

/-- Claim C10: whenever render returns, the javaScriptEnabled option handed
to the native view is true when the host omitted the prop, because the JSX
sets it to true before spreading the host props, and equals the host value
when the host supplied one, because the spread comes after the default. -/
theorem C10_javascript_default (p : Props) (s : ComponentState) (out : RenderOutput)
    (h : renderOk p s = some out) :
    (p.javaScriptEnabled = none → out.nativeProps.javaScriptEnabled = some true) ∧
      ∀ b : Bool, p.javaScriptEnabled = some b →
        out.nativeProps.javaScriptEnabled = some b := by
  obtain ⟨-, -, hnp, -⟩ := renderOk_shape p s out h
  constructor
  · intro hj
    rw [hnp]
    unfold forwardedNativeProps
    rw [hj]
    rfl
  · intro b hj
    rw [hnp]
    unfold forwardedNativeProps
    rw [hj]
    rfl

/-- Witness for claim C10 at a concrete input: the host omits every prop,
and the native view receives javaScriptEnabled true. -/
theorem C10_witness :
    (pNone.javaScriptEnabled = none → outIdleNone.nativeProps.javaScriptEnabled = some true) ∧
      ∀ b : Bool, pNone.javaScriptEnabled = some b →
        outIdleNone.nativeProps.javaScriptEnabled = some b :=
  C10_javascript_default pNone initialState outIdleNone (by rfl)

end WebViewBridge
